import Mathlib

/-
  Verification of the pre-flight validation engine, transaction builders and
  public operation facade of the wdk-protocol-lending-aave-evm adapter
  (source: src/aave-protocol-evm.js, src/utils.js of the repository).

  Conventions of the shallow embedding:
  * JS bigint and nonnegative JS number quantities are modelled as Nat.
    Every operation rejects a non-positive amount before using it, and the
    claims never involve a strictly negative amount, so amounts are modelled
    as a sentinel-or-Nat type where the JS test (amount <= 0) becomes (n = 0).
  * The JS Number conversion applied by getAccountData is modelled as exact
    on integers; no claim depends on double rounding.
  * Address strings are modelled by their syntactic class and numeric value:
    a syntactically valid EVM address with value a, or a malformed string.
  * The chain reader is a pure state record; the transaction sender is a pair
    of fee and hash oracles on transactions. Each facade returns its outcome
    with the list of transactions it submitted to the sender, in order (a
    batched ERC-4337 account submits the listed transactions as one bundle).
-/

namespace Aave

/-- The ray fixed point scale, 10 to the 27, used for indices and rates. -/
def RAY : Nat := 10 ^ 27

/-- Half of the ray scale, the round-half-up offset. -/
def HALF_RAY : Nat := RAY / 2

/-- Modelled from the spec: rayMultiply computes (a*b + RAY/2) / RAY with
arbitrary-precision integers. The implementation file
src/math-utils/ray-math.js is absent from the sources; only its type
declaration src/types/src/math-utils/ray-math.d.ts is present, so the body is
taken from the spec formula. -/
def rayMul (a b : Nat) : Nat := (a * b + HALF_RAY) / RAY

/-- Modelled from the spec: percentDivide computes
(value*10000 + percentage/2) / percentage. The implementation file
src/math-utils/percentage-math.js is absent from the sources, so the body is
taken from the spec formula. -/
def percentDiv (value percentage : Nat) : Nat :=
  (value * 10000 + percentage / 2) / percentage

/-- The ethers MaxInt256 constant, 2 to the 255 minus 1, imported and used by
src/aave-protocol-evm.js both as the infinity sentinel of the health factor
and as the full-amount sentinel written into withdraw and repay calls. -/
def maxInt256 : Nat := 2 ^ 255 - 1

/-- Modelled from the spec: the maximum unsigned 256-bit integer of the
chain, 2 to the 256 minus 1. The spec describes the sentinel as the maximum
unsigned integer representation; this definition exists to compare that
description with the constant the code actually uses. -/
def specMaxUint256 : Nat := 2 ^ 256 - 1

/-- The health factor liquidation threshold, 1e18 in the source. -/
def HEALTH_FACTOR_LIQUIDATION_THRESHOLD : Nat := 10 ^ 18

/-- isBigIntInfinity from src/aave-protocol-evm.js: the raw value equals the
ethers MaxInt256 constant. -/
def isBigIntInfinity (value : Nat) : Bool := value == maxInt256

/-- An address argument as the JS code sees it: a syntactically valid EVM
address carrying a numeric value (the zero address is valid with value 0),
or a malformed string that the ethers isAddress test rejects. -/
inductive AddrInput where
  | valid (a : Nat)
  | malformed
deriving DecidableEq, Repr

/-- The ethers isAddress test. -/
def isAddress : AddrInput → Bool
  | .valid _ => true
  | .malformed => false

/-- The numeric value of an address argument; only ever used after the
facade has established syntactic validity. -/
def AddrInput.val : AddrInput → Nat
  | .valid a => a
  | .malformed => 0

/-- The ethers ZeroAddress constant. -/
def ZeroAddress : AddrInput := .valid 0

/-- A JS amount argument: the Infinity sentinel, or a nonnegative integer. -/
inductive Amount where
  | num (n : Nat)
  | inf
deriving DecidableEq, Repr

/-- The JS test (amount <= 0): false on Infinity, and on a nonnegative
integer exactly when it is zero. -/
def Amount.le0 : Amount → Bool
  | .num n => n == 0
  | .inf => false

/-- The JS comparison (balance < amount) with balance a bigint: always true
against Infinity. -/
def Amount.balanceLt (balance : Nat) : Amount → Bool
  | .num n => balance < n
  | .inf => true

/-- Every distinct error message the adapter throws. -/
inductive Err where
  | insufficientFund
  | cannotFindTokenReserve
  | reservePaused
  | reserveFrozen
  | reserveInactive
  | supplyCapExceeded
  | insufficientBalanceToWithdraw
  | healthFactorTooLow
  | invalidLtv
  | insufficientCollateral
  | borrowDisabled
  | borrowCapExceeded
  | debtNotFound
  | tokenCannotBeCollateral
  | chainNotSupported
  | tokenNotValidAddress
  | onBehalfNotValidAddress
  | toNotValidAddress
  | amountNotPositive
  | requireNonReadOnly
  | rangeErrorInfinity
deriving DecidableEq, Repr

/-- The JS BigInt conversion of an amount: Infinity raises a RangeError. -/
def Amount.toBigInt : Amount → Except Err Nat
  | .num n => .ok n
  | .inf => .error .rangeErrorInfinity

/-- One entry of the reserve list returned by getReservesData. -/
structure Reserve where
  underlyingAsset : Nat
  aTokenAddress : Nat
  variableDebtTokenAddress : Nat
  isPaused : Bool
  isFrozen : Bool
  isActive : Bool
  borrowingEnabled : Bool
  decimals : Nat
  liquidityIndex : Nat
  variableBorrowIndex : Nat
  accruedToTreasury : Nat
  supplyCap : Nat
  borrowCap : Nat
  totalScaledVariableDebt : Nat
  baseLTVasCollateral : Nat
deriving DecidableEq, Repr

/-- The six raw words returned by getUserAccountData. -/
structure RawAccountData where
  totalCollateralBase : Nat
  totalDebtBase : Nat
  availableBorrowsBase : Nat
  currentLiquidationThreshold : Nat
  ltv : Nat
  healthFactor : Nat
deriving DecidableEq, Repr

/-- A freshly read chain state: every read the validation engine performs is
a field applied to the address it queries. -/
structure ChainState where
  chainSupported : Bool
  poolAddr : Nat
  balanceOf : Nat → Nat
  reserves : List Reserve
  scaledTotalSupply : Nat → Nat
  scaledBalanceOf : Nat → Nat → Nat
  rawAccountData : Nat → RawAccountData
  assetPrice : Nat → Nat

/-- The encoded call data of each transaction the adapter builds. -/
inductive CallData where
  | approve (spender : Nat) (amount : Amount)
  | supplyCall (token : Nat) (amount : Amount) (onBehalfOf : Nat) (referralCode : Nat)
  | withdrawCall (token : Nat) (amount : Nat) (toAddr : Nat)
  | borrowCall (token : Nat) (amount : Amount) (rateMode : Nat) (referralCode : Nat) (onBehalfOf : Nat)
  | repayCall (token : Nat) (amount : Nat) (rateMode : Nat) (onBehalfOf : Nat)
  | setUserUseReserveAsCollateral (token : Nat) (useAsCollateral : Bool)
deriving DecidableEq, Repr

/-- A prepared EVM transaction; toAddr renders the JS field named to. -/
structure Tx where
  data : CallData
  toAddr : Nat
  value : Nat
  gasLimit : Option Nat
deriving DecidableEq, Repr

/-- The default gas limit of the source. -/
def DEFAULT_GAS_LIMIT : Nat := 300000

/-- The wallet account bound to the adapter: its capability flags, resolved
address, and the fee and hash oracles of the transaction sender. -/
structure Account where
  isSigner : Bool
  isBatched : Bool
  address : Nat
  feeOf : Tx → Nat
  hashOf : Tx → Nat
  batchFee : List Tx → Nat
  batchHash : List Tx → Nat
  quoteFeeOf : Tx → Nat
  batchQuoteFee : List Tx → Nat

/-- Options of supply and quoteSupply. -/
structure SupplyOptions where
  token : AddrInput
  amount : Amount
  onBehalfOf : Option AddrInput
deriving DecidableEq, Repr

/-- Options of withdraw and quoteWithdraw; toAddr renders the JS field
named to. -/
structure WithdrawOptions where
  token : AddrInput
  amount : Amount
  toAddr : Option AddrInput
deriving DecidableEq, Repr

/-- Options of borrow and quoteBorrow. -/
structure BorrowOptions where
  token : AddrInput
  amount : Amount
  onBehalfOf : Option AddrInput
deriving DecidableEq, Repr

/-- Options of repay and quoteRepay. -/
structure RepayOptions where
  token : AddrInput
  amount : Amount
  onBehalfOf : Option AddrInput
deriving DecidableEq, Repr

/-- The JS test rejecting an optional counterparty address: present and
either the zero address or malformed. -/
def badOptionalAddr (a : Option AddrInput) : Bool :=
  match a with
  | some x => x == ZeroAddress || !isAddress x
  | none => false

/-- getAddressMap: resolves the per-chain contract addresses, failing on an
unsupported chain id; only the pool address matters downstream, the other
contract reads are modelled directly on the state. -/
def getAddressMap (s : ChainState) : Except Err Nat :=
  if s.chainSupported then .ok s.poolAddr else .error .chainNotSupported

/-- getTokenReserveData: reads the reserve list through the data provider
(which needs the resolved address map) and selects the entry whose
underlying asset is the requested token. -/
def getTokenReserveData (s : ChainState) (token : Nat) : Except Err Reserve :=
  match getAddressMap s with
  | .error e => .error e
  | .ok _ =>
    match s.reserves.find? (fun r => r.underlyingAsset == token) with
    | some r => .ok r
    | none => .error .cannotFindTokenReserve

/-- getUserDebtByToken: the projected variable debt of an address, the
ray product of its scaled debt balance and the variable borrow index. -/
def getUserDebtByToken (s : ChainState) (r : Reserve) (address : Nat) : Nat :=
  rayMul (s.scaledBalanceOf r.variableDebtTokenAddress address) r.variableBorrowIndex

/-- The health factor exposed by getAccountData: a number, or the JS
Infinity sentinel. -/
inductive HealthFactor where
  | fin (n : Nat)
  | inf
deriving DecidableEq, Repr

/-- The JS comparison (healthFactor < threshold): false on Infinity. -/
def HealthFactor.ltThreshold : HealthFactor → Bool
  | .fin n => n < HEALTH_FACTOR_LIQUIDATION_THRESHOLD
  | .inf => false

/-- The shaped result of getAccountData. -/
structure AccountData where
  totalCollateralBase : Nat
  totalDebtBase : Nat
  availableBorrowsBase : Nat
  currentLiquidationThreshold : Nat
  ltv : Nat
  healthFactor : HealthFactor
deriving DecidableEq, Repr

/-- getAccountData: validates an explicitly supplied address, then reads the
six raw account words of the target (the supplied address, or the caller)
and maps the raw health factor to Infinity exactly on isBigIntInfinity. -/
def getAccountData (s : ChainState) (caller : Nat) (address : Option AddrInput) :
    Except Err AccountData :=
  if badOptionalAddr address then .error .onBehalfNotValidAddress
  else
    let userAddress := match address with
      | some a => a.val
      | none => caller
    match getAddressMap s with
    | .error e => .error e
    | .ok _ =>
      let raw := s.rawAccountData userAddress
      .ok {
        totalCollateralBase := raw.totalCollateralBase
        totalDebtBase := raw.totalDebtBase
        availableBorrowsBase := raw.availableBorrowsBase
        currentLiquidationThreshold := raw.currentLiquidationThreshold
        ltv := raw.ltv
        healthFactor := if isBigIntInfinity raw.healthFactor then .inf else .fin raw.healthFactor
      }

/-- validateSupply: balance, reserve existence, paused, frozen, inactive,
then the supply cap projection
rayMul(scaledTotalSupply + accruedToTreasury, liquidityIndex + amount)
compared against supplyCap * 10^decimals. -/
def validateSupply (s : ChainState) (o : SupplyOptions) : Except Err Unit :=
  let tokenBalance := s.balanceOf o.token.val
  if o.amount.balanceLt tokenBalance then .error .insufficientFund
  else match getTokenReserveData s o.token.val with
  | .error e => .error e
  | .ok r =>
    if r.isPaused then .error .reservePaused
    else if r.isFrozen then .error .reserveFrozen
    else if !r.isActive then .error .reserveInactive
    else match o.amount.toBigInt with
    | .error e => .error e
    | .ok amount =>
      let aTokenScaledSupply := s.scaledTotalSupply r.aTokenAddress
      let totalSupplyAfterDeposit :=
        rayMul (aTokenScaledSupply + r.accruedToTreasury) (r.liquidityIndex + amount)
      let supplyCapInBaseUnit := r.supplyCap * 10 ^ r.decimals
      if totalSupplyAfterDeposit > supplyCapInBaseUnit then .error .supplyCapExceeded
      else .ok ()

/-- validateWithdraw: reserve flags, then the projected balance
rayMul(scaledBalanceOf(caller), liquidityIndex) against the amount, then the
account health factor, then the LTV eligibility. -/
def validateWithdraw (s : ChainState) (acct : Account) (o : WithdrawOptions) :
    Except Err Unit :=
  let address := acct.address
  match getTokenReserveData s o.token.val with
  | .error e => .error e
  | .ok r =>
    if r.isPaused then .error .reservePaused
    else if r.isFrozen then .error .reserveFrozen
    else if !r.isActive then .error .reserveInactive
    else
      let userScaledBalance := s.scaledBalanceOf r.aTokenAddress address
      let userBalance := rayMul userScaledBalance r.liquidityIndex
      match o.amount.toBigInt with
      | .error e => .error e
      | .ok amount =>
        if amount > userBalance then .error .insufficientBalanceToWithdraw
        else match getAccountData s address none with
        | .error e => .error e
        | .ok ad =>
          if ad.healthFactor.ltThreshold then .error .healthFactorTooLow
          else if ad.ltv == 0 || r.baseLTVasCollateral == 0 then .error .invalidLtv
          else .ok ()

/-- validateBorrow: account data of the target, collateral and health
factor, reserve flags and borrowing switch, the borrow cap projection, and
the oracle-priced collateral sufficiency check. -/
def validateBorrow (s : ChainState) (acct : Account) (o : BorrowOptions) :
    Except Err Unit :=
  match getAccountData s acct.address o.onBehalfOf with
  | .error e => .error e
  | .ok ad =>
    if ad.ltv == 0 then .error .insufficientCollateral
    else if ad.totalCollateralBase == 0 then .error .insufficientCollateral
    else if ad.healthFactor.ltThreshold then .error .healthFactorTooLow
    else match getTokenReserveData s o.token.val with
    | .error e => .error e
    | .ok r =>
      match getAddressMap s with
      | .error e => .error e
      | .ok _ =>
        if r.isPaused then .error .reservePaused
        else if r.isFrozen then .error .reserveFrozen
        else if !r.isActive then .error .reserveInactive
        else if !r.borrowingEnabled then .error .borrowDisabled
        else
          let borrowCapInBaseUnit := r.borrowCap * 10 ^ r.decimals
          let totalSupplyVariableDebt := rayMul r.totalScaledVariableDebt r.variableBorrowIndex
          match o.amount.toBigInt with
          | .error e => .error e
          | .ok amount =>
            let totalDebtWithAmount := totalSupplyVariableDebt + amount
            if totalDebtWithAmount > borrowCapInBaseUnit then .error .borrowCapExceeded
            else
              let tokenPrice := s.assetPrice o.token.val
              let amountInBaseCurrency := amount * tokenPrice / 10 ^ r.decimals
              let collateralNeededInBaseCurrency :=
                percentDiv (ad.totalDebtBase + amountInBaseCurrency) ad.ltv
              if collateralNeededInBaseCurrency > ad.totalCollateralBase then
                .error .insufficientCollateral
              else .ok ()

/-- validateRepay: reserve paused and inactive flags (frozen reserves may be
repaid), then the projected debt of the target must be nonzero. -/
def validateRepay (s : ChainState) (acct : Account) (o : RepayOptions) :
    Except Err Unit :=
  match getTokenReserveData s o.token.val with
  | .error e => .error e
  | .ok r =>
    if r.isPaused then .error .reservePaused
    else if !r.isActive then .error .reserveInactive
    else
      let target := match o.onBehalfOf with
        | some a => a.val
        | none => acct.address
      let userDebt := getUserDebtByToken s r target
      if userDebt == 0 then .error .debtNotFound
      else .ok ()

/-- validateUseReserveAsCollateral: enabling requires a nonzero base LTV. -/
def validateUseReserveAsCollateral (s : ChainState) (token : AddrInput)
    (useAsCollateral : Bool) : Except Err Unit :=
  match getTokenReserveData s token.val with
  | .error e => .error e
  | .ok r =>
    if useAsCollateral && r.baseLTVasCollateral == 0 then .error .tokenCannotBeCollateral
    else .ok ()

/-- getApproveTransaction: an ERC-20 approval of the spender for the raw
requested amount, addressed to the token contract, without a gas limit. -/
def getApproveTransaction (token : Nat) (spender : Nat) (amount : Amount) : Tx :=
  { data := .approve spender amount
    toAddr := token
    value := 0
    gasLimit := none }

/-- The onBehalfOf or to argument defaulted to the caller address. -/
def orCaller (a : Option AddrInput) (caller : Nat) : Nat :=
  match a with
  | some x => x.val
  | none => caller

/-- getSupplyTransaction: encodes supply(token, amount, onBehalfOf or
caller, 0) against the pool. -/
def getSupplyTransaction (s : ChainState) (acct : Account) (o : SupplyOptions) :
    Except Err Tx :=
  match getAddressMap s with
  | .error e => .error e
  | .ok pool =>
    .ok {
      data := .supplyCall o.token.val o.amount (orCaller o.onBehalfOf acct.address) 0
      toAddr := pool
      value := 0
      gasLimit := some DEFAULT_GAS_LIMIT }

/-- getWithdrawTransaction: encodes withdraw(token, amount, to or caller),
with the Infinity sentinel replaced by the ethers MaxInt256 constant. -/
def getWithdrawTransaction (s : ChainState) (acct : Account) (o : WithdrawOptions) :
    Except Err Tx :=
  match getAddressMap s with
  | .error e => .error e
  | .ok pool =>
    let amount := match o.amount with
      | .inf => maxInt256
      | .num n => n
    .ok {
      data := .withdrawCall o.token.val amount (orCaller o.toAddr acct.address)
      toAddr := pool
      value := 0
      gasLimit := some DEFAULT_GAS_LIMIT }

/-- getBorrowTransaction: encodes borrow(token, amount, 2, 0, onBehalfOf or
caller) against the pool. -/
def getBorrowTransaction (s : ChainState) (acct : Account) (o : BorrowOptions) :
    Except Err Tx :=
  match getAddressMap s with
  | .error e => .error e
  | .ok pool =>
    .ok {
      data := .borrowCall o.token.val o.amount 2 0 (orCaller o.onBehalfOf acct.address)
      toAddr := pool
      value := 0
      gasLimit := some DEFAULT_GAS_LIMIT }

/-- getRepayTransaction: encodes repay(token, amount, 2, onBehalfOf or
caller); the Infinity sentinel becomes the target projected debt plus 100
when repaying on behalf of another account, and MaxInt256 otherwise. -/
def getRepayTransaction (s : ChainState) (acct : Account) (o : RepayOptions) :
    Except Err Tx :=
  match getAddressMap s with
  | .error e => .error e
  | .ok pool =>
    let amountOrErr : Except Err Nat := match o.amount with
      | .inf =>
        match o.onBehalfOf with
        | some obo =>
          match getTokenReserveData s o.token.val with
          | .error e => .error e
          | .ok r => .ok (getUserDebtByToken s r obo.val + 100)
        | none => .ok maxInt256
      | .num n => .ok n
    match amountOrErr with
    | .error e => .error e
    | .ok amount =>
      .ok {
        data := .repayCall o.token.val amount 2 (orCaller o.onBehalfOf acct.address)
        toAddr := pool
        value := 0
        gasLimit := some DEFAULT_GAS_LIMIT }

/-- The structural input guards of supply, in source order: account
capability, token syntax, onBehalfOf, positive amount. -/
def supplyInputError (acct : Account) (o : SupplyOptions) : Option Err :=
  if !acct.isSigner then some .requireNonReadOnly
  else if !isAddress o.token then some .tokenNotValidAddress
  else if badOptionalAddr o.onBehalfOf then some .onBehalfNotValidAddress
  else if o.amount.le0 then some .amountNotPositive
  else none

/-- The structural input guards of quoteSupply: same as supply without the
account capability check. -/
def quoteSupplyInputError (o : SupplyOptions) : Option Err :=
  if !isAddress o.token then some .tokenNotValidAddress
  else if badOptionalAddr o.onBehalfOf then some .onBehalfNotValidAddress
  else if o.amount.le0 then some .amountNotPositive
  else none

/-- The structural input guards of withdraw and quoteWithdraw, in source
order: to, token syntax, positive amount. No account capability check. -/
def withdrawInputError (o : WithdrawOptions) : Option Err :=
  if badOptionalAddr o.toAddr then some .toNotValidAddress
  else if !isAddress o.token then some .tokenNotValidAddress
  else if o.amount.le0 then some .amountNotPositive
  else none

/-- The structural input guards of borrow and quoteBorrow, in source order:
onBehalfOf, token syntax, positive amount. No account capability check. -/
def borrowInputError (o : BorrowOptions) : Option Err :=
  if badOptionalAddr o.onBehalfOf then some .onBehalfNotValidAddress
  else if !isAddress o.token then some .tokenNotValidAddress
  else if o.amount.le0 then some .amountNotPositive
  else none

/-- The structural input guards of repay, in source order: account
capability, onBehalfOf, positive amount, token syntax. -/
def repayInputError (acct : Account) (o : RepayOptions) : Option Err :=
  if !acct.isSigner then some .requireNonReadOnly
  else if badOptionalAddr o.onBehalfOf then some .onBehalfNotValidAddress
  else if o.amount.le0 then some .amountNotPositive
  else if !isAddress o.token then some .tokenNotValidAddress
  else none

/-- The structural input guards of quoteRepay: same as repay without the
account capability check. -/
def quoteRepayInputError (o : RepayOptions) : Option Err :=
  if badOptionalAddr o.onBehalfOf then some .onBehalfNotValidAddress
  else if o.amount.le0 then some .amountNotPositive
  else if !isAddress o.token then some .tokenNotValidAddress
  else none

/-- A facade result: the hash and fee the transaction sender returned. -/
structure OpResult where
  fee : Nat
  hash : Nat
deriving DecidableEq, Repr

/-- supply: input guards, validateSupply, then an approval of the pool for
the raw amount followed by the supply call; a batched account receives both
transactions as one bundle, a plain account sequentially, the returned fee
summing both steps and the hash being that of the supply call. -/
def supply (acct : Account) (s : ChainState) (o : SupplyOptions) :
    Except Err OpResult × List Tx :=
  match supplyInputError acct o with
  | some e => (.error e, [])
  | none =>
    match validateSupply s o with
    | .error e => (.error e, [])
    | .ok _ =>
      match getAddressMap s with
      | .error e => (.error e, [])
      | .ok pool =>
        let approveTx := getApproveTransaction o.token.val pool o.amount
        match getSupplyTransaction s acct o with
        | .error e => (.error e, [])
        | .ok supplyTx =>
          if acct.isBatched then
            (.ok { fee := acct.batchFee [approveTx, supplyTx]
                   hash := acct.batchHash [approveTx, supplyTx] },
             [approveTx, supplyTx])
          else
            (.ok { fee := acct.feeOf supplyTx + acct.feeOf approveTx
                   hash := acct.hashOf supplyTx },
             [approveTx, supplyTx])

/-- quoteSupply: input guards, then the fee quote of the approval and supply
transactions; the validation engine is not invoked. -/
def quoteSupply (acct : Account) (s : ChainState) (o : SupplyOptions) :
    Except Err Nat :=
  match quoteSupplyInputError o with
  | some e => .error e
  | none =>
    match getAddressMap s with
    | .error e => .error e
    | .ok pool =>
      let approveTx := getApproveTransaction o.token.val pool o.amount
      match getSupplyTransaction s acct o with
      | .error e => .error e
      | .ok supplyTx =>
        if acct.isBatched then .ok (acct.batchQuoteFee [approveTx, supplyTx])
        else .ok (acct.quoteFeeOf approveTx + acct.quoteFeeOf supplyTx)

/-- withdraw: input guards, validateWithdraw, then the single withdraw
transaction. There is no account capability guard in the source. -/
def withdraw (acct : Account) (s : ChainState) (o : WithdrawOptions) :
    Except Err OpResult × List Tx :=
  match withdrawInputError o with
  | some e => (.error e, [])
  | none =>
    match validateWithdraw s acct o with
    | .error e => (.error e, [])
    | .ok _ =>
      match getWithdrawTransaction s acct o with
      | .error e => (.error e, [])
      | .ok tx =>
        if acct.isBatched then
          (.ok { fee := acct.batchFee [tx], hash := acct.batchHash [tx] }, [tx])
        else
          (.ok { fee := acct.feeOf tx, hash := acct.hashOf tx }, [tx])

/-- quoteWithdraw: input guards, then the fee quote of the withdraw
transaction; the validation engine is not invoked. -/
def quoteWithdraw (acct : Account) (s : ChainState) (o : WithdrawOptions) :
    Except Err Nat :=
  match withdrawInputError o with
  | some e => .error e
  | none =>
    match getWithdrawTransaction s acct o with
    | .error e => .error e
    | .ok tx =>
      if acct.isBatched then .ok (acct.batchQuoteFee [tx])
      else .ok (acct.quoteFeeOf tx)

/-- borrow: input guards, validateBorrow, then the single borrow
transaction. There is no account capability guard in the source. -/
def borrow (acct : Account) (s : ChainState) (o : BorrowOptions) :
    Except Err OpResult × List Tx :=
  match borrowInputError o with
  | some e => (.error e, [])
  | none =>
    match validateBorrow s acct o with
    | .error e => (.error e, [])
    | .ok _ =>
      match getBorrowTransaction s acct o with
      | .error e => (.error e, [])
      | .ok tx =>
        if acct.isBatched then
          (.ok { fee := acct.batchFee [tx], hash := acct.batchHash [tx] }, [tx])
        else
          (.ok { fee := acct.feeOf tx, hash := acct.hashOf tx }, [tx])

/-- quoteBorrow: input guards, then the fee quote of the borrow transaction;
the validation engine is not invoked. -/
def quoteBorrow (acct : Account) (s : ChainState) (o : BorrowOptions) :
    Except Err Nat :=
  match borrowInputError o with
  | some e => .error e
  | none =>
    match getBorrowTransaction s acct o with
    | .error e => .error e
    | .ok tx =>
      if acct.isBatched then .ok (acct.batchQuoteFee [tx])
      else .ok (acct.quoteFeeOf tx)

/-- repay: input guards, validateRepay, then an approval of the pool for the
raw amount followed by the repay call, with the fee summing both steps and
the hash being that of the repay call. -/
def repay (acct : Account) (s : ChainState) (o : RepayOptions) :
    Except Err OpResult × List Tx :=
  match repayInputError acct o with
  | some e => (.error e, [])
  | none =>
    match validateRepay s acct o with
    | .error e => (.error e, [])
    | .ok _ =>
      match getAddressMap s with
      | .error e => (.error e, [])
      | .ok pool =>
        let approveTx := getApproveTransaction o.token.val pool o.amount
        match getRepayTransaction s acct o with
        | .error e => (.error e, [])
        | .ok repayTx =>
          if acct.isBatched then
            (.ok { fee := acct.batchFee [approveTx, repayTx]
                   hash := acct.batchHash [approveTx, repayTx] },
             [approveTx, repayTx])
          else
            (.ok { fee := acct.feeOf approveTx + acct.feeOf repayTx
                   hash := acct.hashOf repayTx },
             [approveTx, repayTx])

/-- quoteRepay: input guards, then the fee quote of the approval and repay
transactions; the validation engine is not invoked (though resolving a full
on-behalf repay amount still reads the reserve). -/
def quoteRepay (acct : Account) (s : ChainState) (o : RepayOptions) :
    Except Err Nat :=
  match quoteRepayInputError o with
  | some e => .error e
  | none =>
    match getAddressMap s with
    | .error e => .error e
    | .ok pool =>
      let approveTx := getApproveTransaction o.token.val pool o.amount
      match getRepayTransaction s acct o with
      | .error e => .error e
      | .ok repayTx =>
        if acct.isBatched then .ok (acct.batchQuoteFee [approveTx, repayTx])
        else .ok (acct.quoteFeeOf approveTx + acct.quoteFeeOf repayTx)

/-- setUseReserveAsCollateral: account capability and token syntax guards,
validateUseReserveAsCollateral, then the single collateral toggle call. -/
def setUseReserveAsCollateral (acct : Account) (s : ChainState)
    (token : AddrInput) (useAsCollateral : Bool) :
    Except Err OpResult × List Tx :=
  if !acct.isSigner then (.error .requireNonReadOnly, [])
  else if !isAddress token then (.error .tokenNotValidAddress, [])
  else
    match validateUseReserveAsCollateral s token useAsCollateral with
    | .error e => (.error e, [])
    | .ok _ =>
      match getAddressMap s with
      | .error e => (.error e, [])
      | .ok pool =>
        let tx : Tx := {
          data := .setUserUseReserveAsCollateral token.val useAsCollateral
          toAddr := pool
          value := 0
          gasLimit := some DEFAULT_GAS_LIMIT }
        if acct.isBatched then
          (.ok { fee := acct.batchFee [tx], hash := acct.batchHash [tx] }, [tx])
        else
          (.ok { fee := acct.feeOf tx, hash := acct.hashOf tx }, [tx])

/-! Concrete fixtures used by witnesses and counterexamples. -/

/-- A signing, non-batched account with constant oracles. -/
def dummyAcct : Account :=
  { isSigner := true
    isBatched := false
    address := 21
    feeOf := fun _ => 5
    hashOf := fun _ => 77
    batchFee := fun _ => 9
    batchHash := fun _ => 88
    quoteFeeOf := fun _ => 3
    batchQuoteFee := fun _ => 6 }

/-- A read-only account with the same oracles. -/
def roAcct : Account :=
  { isSigner := false
    isBatched := false
    address := 21
    feeOf := fun _ => 5
    hashOf := fun _ => 77
    batchFee := fun _ => 9
    batchHash := fun _ => 88
    quoteFeeOf := fun _ => 3
    batchQuoteFee := fun _ => 6 }

/-- A healthy reserve for token 7 with both caps set to 0. -/
def zeroCapReserve : Reserve :=
  { underlyingAsset := 7
    aTokenAddress := 11
    variableDebtTokenAddress := 13
    isPaused := false
    isFrozen := false
    isActive := true
    borrowingEnabled := true
    decimals := 0
    liquidityIndex := RAY
    variableBorrowIndex := RAY
    accruedToTreasury := 0
    supplyCap := 0
    borrowCap := 0
    totalScaledVariableDebt := 0
    baseLTVasCollateral := 5000 }

/-- Raw account words of a well-collateralised account at the liquidation
threshold. -/
def healthyRaw : RawAccountData :=
  { totalCollateralBase := 1000000
    totalDebtBase := 0
    availableBorrowsBase := 0
    currentLiquidationThreshold := 0
    ltv := 5000
    healthFactor := 10 ^ 18 }

/-- A chain state whose only reserve has both caps at 0. -/
def c1State : ChainState :=
  { chainSupported := true
    poolAddr := 99
    balanceOf := fun _ => 10 ^ 12
    reserves := [zeroCapReserve]
    scaledTotalSupply := fun _ => RAY
    scaledBalanceOf := fun _ _ => 0
    rawAccountData := fun _ => healthyRaw
    assetPrice := fun _ => 1 }

/-! Claim theorems. -/

/-- C10: rayMul is commutative in its two operands and RAY is a right
identity on every nonnegative integer. -/
theorem rayMul_comm_and_identity (a b : Nat) :
    rayMul a b = rayMul b a ∧ rayMul a RAY = a := by
  constructor
  · unfold rayMul
    rw [Nat.mul_comm]
  · unfold rayMul
    have hhalf : HALF_RAY < RAY := by decide
    have hpos : 0 < RAY := by decide
    rw [Nat.mul_comm, Nat.add_comm, Nat.add_mul_div_left _ _ hpos,
      Nat.div_eq_of_lt hhalf, Nat.zero_add]

/-- C1 counterexample: on a reserve whose caps are both 0, the validation
engine does raise the cap errors, so a cap of 0 is not treated as the
absence of a cap. -/
theorem c1_zero_cap_counterexample :
    validateSupply c1State { token := .valid 7, amount := .num 1, onBehalfOf := none }
      = .error .supplyCapExceeded ∧
    validateBorrow c1State dummyAcct { token := .valid 7, amount := .num 1, onBehalfOf := none }
      = .error .borrowCapExceeded := by
  constructor <;> rfl

/-- C1 amended: a cap of 0 is a literal zero cap, not the absence of one.
On a reserve with supplyCap 0, supply validation raises the supply cap error
whenever the projected total supply is positive; on a reserve with
borrowCap 0, borrow validation that reaches the cap check (collateral,
health factor, flags and borrowing switch all fine) raises the borrow cap
error for every positive amount. -/
theorem c1_zero_cap_raises (s : ChainState) (acct : Account) (r : Reserve)
    (t n : Nat) (obo : Option AddrInput)
    (hsup : s.chainSupported = true)
    (hfind : s.reserves.find? (fun q => q.underlyingAsset == t) = some r)
    (hp : r.isPaused = false) (hf : r.isFrozen = false) (ha : r.isActive = true) :
    (r.supplyCap = 0 → ¬ s.balanceOf t < n →
      0 < rayMul (s.scaledTotalSupply r.aTokenAddress + r.accruedToTreasury) (r.liquidityIndex + n) →
      validateSupply s { token := .valid t, amount := .num n, onBehalfOf := obo }
        = .error .supplyCapExceeded)
    ∧
    (r.borrowCap = 0 → r.borrowingEnabled = true → 1 ≤ n →
      (s.rawAccountData acct.address).ltv ≠ 0 →
      (s.rawAccountData acct.address).totalCollateralBase ≠ 0 →
      HEALTH_FACTOR_LIQUIDATION_THRESHOLD ≤ (s.rawAccountData acct.address).healthFactor →
      validateBorrow s acct { token := .valid t, amount := .num n, onBehalfOf := none }
        = .error .borrowCapExceeded) := by
  constructor
  · intro hcap hbal hproj
    simp [validateSupply, getTokenReserveData, getAddressMap, hsup, hfind,
      AddrInput.val, Amount.balanceLt, Amount.toBigInt, hp, hf, ha, hbal, hcap, hproj]
  · intro hcap hbe hn hltv htcb hhf
    have hfin : HealthFactor.ltThreshold
        (if isBigIntInfinity (s.rawAccountData acct.address).healthFactor then .inf
         else .fin (s.rawAccountData acct.address).healthFactor) = false := by
      by_cases hinf : isBigIntInfinity (s.rawAccountData acct.address).healthFactor = true
      · simp [hinf, HealthFactor.ltThreshold]
      · simp [hinf, HealthFactor.ltThreshold, Nat.not_lt.mpr hhf]
    simp [validateBorrow, getAccountData, getTokenReserveData, getAddressMap,
      badOptionalAddr, hsup, hfind, AddrInput.val, Amount.toBigInt, hp, hf, ha,
      hbe, hfin, hltv, htcb, hcap]
    omega

/-- C1 witness: the amended statement applied to the zero-cap fixture. -/
theorem c1_zero_cap_witness :
    validateSupply c1State { token := .valid 7, amount := .num 2, onBehalfOf := none }
      = .error .supplyCapExceeded ∧
    validateBorrow c1State dummyAcct { token := .valid 7, amount := .num 2, onBehalfOf := none }
      = .error .borrowCapExceeded :=
  ⟨(c1_zero_cap_raises c1State dummyAcct zeroCapReserve 7 2 none rfl rfl rfl rfl rfl).1
      rfl (by decide) (by decide),
   (c1_zero_cap_raises c1State dummyAcct zeroCapReserve 7 2 none rfl rfl rfl rfl rfl).2
      rfl rfl (by decide) (by decide) (by decide) (by decide)⟩

/-- C2: whenever the supply cap projection
rayMul(scaledTotalSupply + accruedToTreasury, liquidityIndex + amount)
exceeds supplyCap * 10^decimals on a found, unpaused, unfrozen, active
reserve with a sufficient balance and structurally valid inputs, supply
returns the supply cap error and submits no transaction at all. -/
theorem c2_supply_cap_blocks_send (acct : Account) (s : ChainState)
    (o : SupplyOptions) (r : Reserve) (n : Nat)
    (hin : supplyInputError acct o = none)
    (hamt : o.amount = .num n)
    (hsup : s.chainSupported = true)
    (hfind : s.reserves.find? (fun q => q.underlyingAsset == o.token.val) = some r)
    (hp : r.isPaused = false) (hf : r.isFrozen = false) (ha : r.isActive = true)
    (hbal : ¬ s.balanceOf o.token.val < n)
    (hcap : r.supplyCap * 10 ^ r.decimals <
      rayMul (s.scaledTotalSupply r.aTokenAddress + r.accruedToTreasury) (r.liquidityIndex + n)) :
    supply acct s o = (.error .supplyCapExceeded, []) := by
  simp [supply, hin, validateSupply, getTokenReserveData, getAddressMap, hsup, hfind,
    hamt, Amount.balanceLt, Amount.toBigInt, hp, hf, ha, hbal, hcap]

/-- C2 witness: the theorem applied to the zero-cap fixture. -/
theorem c2_supply_cap_witness :
    supply dummyAcct c1State { token := .valid 7, amount := .num 3, onBehalfOf := none }
      = (.error .supplyCapExceeded, []) :=
  c2_supply_cap_blocks_send dummyAcct c1State
    { token := .valid 7, amount := .num 3, onBehalfOf := none } zeroCapReserve 3
    rfl rfl rfl rfl rfl rfl rfl (by decide) (by decide)

/-- A reserve with zero base LTV, otherwise unconstrained, for token 7. -/
def c3Reserve : Reserve :=
  { underlyingAsset := 7
    aTokenAddress := 11
    variableDebtTokenAddress := 13
    isPaused := false
    isFrozen := false
    isActive := true
    borrowingEnabled := true
    decimals := 6
    liquidityIndex := RAY
    variableBorrowIndex := RAY
    accruedToTreasury := 0
    supplyCap := 1000000
    borrowCap := 1000000
    totalScaledVariableDebt := 0
    baseLTVasCollateral := 0 }

/-- Raw account words with zero ltv and a health factor far below 1e18. -/
def lowHfRaw : RawAccountData :=
  { totalCollateralBase := 0
    totalDebtBase := 0
    availableBorrowsBase := 0
    currentLiquidationThreshold := 0
    ltv := 0
    healthFactor := 5 }

/-- A chain state where the caller has both zero ltv and a low health
factor, with plenty of withdrawable balance. -/
def c3State : ChainState :=
  { chainSupported := true
    poolAddr := 99
    balanceOf := fun _ => 0
    reserves := [c3Reserve]
    scaledTotalSupply := fun _ => 0
    scaledBalanceOf := fun _ _ => 10 ^ 12
    rawAccountData := fun _ => lowHfRaw
    assetPrice := fun _ => 1 }

/-- The same state with a health factor exactly at the threshold. -/
def c3StateB : ChainState :=
  { c3State with
    rawAccountData := fun _ =>
      { totalCollateralBase := 0
        totalDebtBase := 0
        availableBorrowsBase := 0
        currentLiquidationThreshold := 0
        ltv := 0
        healthFactor := 10 ^ 18 } }

/-- C3 counterexample: for a caller with account-wide ltv 0 and a health
factor below 1e18, withdraw validation raises the health factor error, not
the invalid LTV error: the health factor rule runs first. -/
theorem c3_order_counterexample :
    validateWithdraw c3State dummyAcct { token := .valid 7, amount := .num 1000000, toAddr := none }
      = .error .healthFactorTooLow ∧
    validateWithdraw c3State dummyAcct { token := .valid 7, amount := .num 1000000, toAddr := none }
      ≠ .error .invalidLtv := by
  have h1 : validateWithdraw c3State dummyAcct
      { token := .valid 7, amount := .num 1000000, toAddr := none }
      = .error .healthFactorTooLow := rfl
  constructor
  · exact h1
  · rw [h1]
    simp

/-- C3 amended: after the projected-balance check, withdraw validation
checks the health factor rule before the invalid LTV rule: a health factor
below 1e18 raises HealthFactorTooLowError regardless of ltv, and the
invalid LTV error is raised only when the health factor passes and the
account ltv or the reserve base LTV is zero. -/
theorem c3_hf_checked_before_ltv (s : ChainState) (acct : Account) (r : Reserve)
    (t n : Nat) (toA : Option AddrInput)
    (hsup : s.chainSupported = true)
    (hfind : s.reserves.find? (fun q => q.underlyingAsset == t) = some r)
    (hp : r.isPaused = false) (hf : r.isFrozen = false) (ha : r.isActive = true)
    (hbal : ¬ n > rayMul (s.scaledBalanceOf r.aTokenAddress acct.address) r.liquidityIndex) :
    ((s.rawAccountData acct.address).healthFactor < HEALTH_FACTOR_LIQUIDATION_THRESHOLD →
      validateWithdraw s acct { token := .valid t, amount := .num n, toAddr := toA }
        = .error .healthFactorTooLow)
    ∧ (HEALTH_FACTOR_LIQUIDATION_THRESHOLD ≤ (s.rawAccountData acct.address).healthFactor →
      ((s.rawAccountData acct.address).ltv = 0 ∨ r.baseLTVasCollateral = 0) →
      validateWithdraw s acct { token := .valid t, amount := .num n, toAddr := toA }
        = .error .invalidLtv) := by
  constructor
  · intro hlow
    have hne : (s.rawAccountData acct.address).healthFactor ≠ maxInt256 := by
      intro he
      rw [he] at hlow
      exact absurd hlow (by decide)
    have hninf : isBigIntInfinity (s.rawAccountData acct.address).healthFactor = false := by
      simp [isBigIntInfinity, hne]
    simp [validateWithdraw, getTokenReserveData, getAddressMap, getAccountData,
      badOptionalAddr, hsup, hfind, AddrInput.val, Amount.toBigInt, hp, hf, ha, hbal,
      hninf, HealthFactor.ltThreshold, hlow]
  · intro hhf hltv
    have hfin : HealthFactor.ltThreshold
        (if isBigIntInfinity (s.rawAccountData acct.address).healthFactor then .inf
         else .fin (s.rawAccountData acct.address).healthFactor) = false := by
      by_cases hinf : isBigIntInfinity (s.rawAccountData acct.address).healthFactor = true
      · simp [hinf, HealthFactor.ltThreshold]
      · simp [hinf, HealthFactor.ltThreshold, Nat.not_lt.mpr hhf]
    rcases hltv with h0 | h0 <;>
      simp [validateWithdraw, getTokenReserveData, getAddressMap, getAccountData,
        badOptionalAddr, hsup, hfind, AddrInput.val, Amount.toBigInt, hp, hf, ha, hbal,
        hfin, h0]

/-- C3 witness: the amended statement applied to the two fixtures, one per
conjunct. -/
theorem c3_hf_before_ltv_witness :
    validateWithdraw c3State dummyAcct { token := .valid 7, amount := .num 5, toAddr := none }
      = .error .healthFactorTooLow ∧
    validateWithdraw c3StateB dummyAcct { token := .valid 7, amount := .num 5, toAddr := none }
      = .error .invalidLtv :=
  ⟨(c3_hf_checked_before_ltv c3State dummyAcct c3Reserve 7 5 none
      rfl rfl rfl rfl rfl (by decide)).1 (by decide),
   (c3_hf_checked_before_ltv c3StateB dummyAcct c3Reserve 7 5 none
      rfl rfl rfl rfl rfl (by decide)).2 (by decide) (Or.inl (by decide))⟩

/-- A supported chain whose caller has no token balance and whose reserve
list is empty. -/
def c4State : ChainState :=
  { chainSupported := true
    poolAddr := 99
    balanceOf := fun _ => 0
    reserves := []
    scaledTotalSupply := fun _ => 0
    scaledBalanceOf := fun _ _ => 0
    rawAccountData := fun _ => lowHfRaw
    assetPrice := fun _ => 1 }

/-- C4 counterexample: on the same state and inputs, supply raises the
insufficient funds validation error while quoteSupply succeeds with a fee:
the quoting variant does not surface the validation error. -/
theorem c4_quote_error_counterexample :
    supply dummyAcct c4State { token := .valid 7, amount := .num 5, onBehalfOf := none }
      = (.error .insufficientFund, []) ∧
    quoteSupply dummyAcct c4State { token := .valid 7, amount := .num 5, onBehalfOf := none }
      = .ok 6 := by
  constructor <;> rfl

/-- C4 amended: the quoting variants run only the structural input guards
and the transaction builders; once those pass (on a supported chain, with a
finite amount where the builder needs one) every quote succeeds with some
fee, so the validation engine errors of the mutating operations are never
raised by quoteSupply, quoteWithdraw, quoteBorrow or quoteRepay. -/
theorem c4_quotes_skip_validation (acct : Account) (s : ChainState)
    (oS : SupplyOptions) (oW : WithdrawOptions) (oB : BorrowOptions) (oR : RepayOptions)
    (nS nB nR : Nat)
    (hsup : s.chainSupported = true)
    (hS : quoteSupplyInputError oS = none) (hSa : oS.amount = .num nS)
    (hW : withdrawInputError oW = none)
    (hB : borrowInputError oB = none) (hBa : oB.amount = .num nB)
    (hR : quoteRepayInputError oR = none) (hRa : oR.amount = .num nR) :
    (∃ f, quoteSupply acct s oS = .ok f) ∧
    (∃ f, quoteWithdraw acct s oW = .ok f) ∧
    (∃ f, quoteBorrow acct s oB = .ok f) ∧
    (∃ f, quoteRepay acct s oR = .ok f) := by
  refine ⟨?_, ?_, ?_, ?_⟩
  · cases hb : acct.isBatched <;>
      exact ⟨_, by simp [quoteSupply, hS, getAddressMap, hsup, getSupplyTransaction, hb] <;> rfl⟩
  · cases hb : acct.isBatched <;>
      exact ⟨_, by simp [quoteWithdraw, hW, getAddressMap, hsup, getWithdrawTransaction, hb] <;> rfl⟩
  · cases hb : acct.isBatched <;>
      exact ⟨_, by simp [quoteBorrow, hB, getAddressMap, hsup, getBorrowTransaction, hb] <;> rfl⟩
  · cases hb : acct.isBatched <;>
      exact ⟨_, by simp [quoteRepay, hR, getAddressMap, hsup, getRepayTransaction, hRa, hb] <;> rfl⟩

/-- C4 witness: the amended statement applied to the empty-balance
fixture, on which the mutating supply fails validation. -/
theorem c4_quotes_skip_validation_witness :
    (∃ f, quoteSupply dummyAcct c4State { token := .valid 7, amount := .num 5, onBehalfOf := none } = .ok f) ∧
    (∃ f, quoteWithdraw dummyAcct c4State { token := .valid 7, amount := .num 5, toAddr := none } = .ok f) ∧
    (∃ f, quoteBorrow dummyAcct c4State { token := .valid 7, amount := .num 5, onBehalfOf := none } = .ok f) ∧
    (∃ f, quoteRepay dummyAcct c4State { token := .valid 7, amount := .num 5, onBehalfOf := none } = .ok f) :=
  c4_quotes_skip_validation dummyAcct c4State
    { token := .valid 7, amount := .num 5, onBehalfOf := none }
    { token := .valid 7, amount := .num 5, toAddr := none }
    { token := .valid 7, amount := .num 5, onBehalfOf := none }
    { token := .valid 7, amount := .num 5, onBehalfOf := none }
    5 5 5 rfl rfl rfl rfl rfl rfl rfl rfl

/-- A reserve for token 7 whose variable debt token is contract 13, with a
unit variable borrow index. -/
def c5Reserve : Reserve :=
  { underlyingAsset := 7
    aTokenAddress := 11
    variableDebtTokenAddress := 13
    isPaused := false
    isFrozen := false
    isActive := true
    borrowingEnabled := true
    decimals := 6
    liquidityIndex := RAY
    variableBorrowIndex := RAY
    accruedToTreasury := 0
    supplyCap := 1000000
    borrowCap := 1000000
    totalScaledVariableDebt := 0
    baseLTVasCollateral := 5000 }

/-- A chain state where account 42 has a scaled variable debt of 500 on the
debt token of reserve 7. -/
def c5State : ChainState :=
  { chainSupported := true
    poolAddr := 99
    balanceOf := fun _ => 0
    reserves := [c5Reserve]
    scaledTotalSupply := fun _ => 0
    scaledBalanceOf := fun c u => if c == 13 && u == 42 then 500 else 0
    rawAccountData := fun _ => lowHfRaw
    assetPrice := fun _ => 1 }

/-- C5 counterexample: the built withdraw call for the maximum sentinel
encodes the ethers MaxInt256 constant, which differs from the maximum
unsigned 256-bit integer named by the claim. -/
theorem c5_sentinel_counterexample :
    getWithdrawTransaction c5State dummyAcct { token := .valid 7, amount := .inf, toAddr := none }
      = .ok { data := .withdrawCall 7 maxInt256 21, toAddr := 99, value := 0,
              gasLimit := some DEFAULT_GAS_LIMIT } ∧
    maxInt256 ≠ specMaxUint256 := by
  constructor
  · rfl
  · decide

/-- C5 amended: the maximum sentinel is translated to the ethers MaxInt256
constant, 2 to the 255 minus 1 (not the maximum unsigned 256-bit integer),
by the withdraw builder and by the self-repay builder; repay on behalf of
another account encodes that account projected variable debt
(rayMul of its scaled debt balance and the variable borrow index)
plus exactly 100 base units. -/
theorem c5_sentinel_translation (s : ChainState) (acct : Account)
    (tokW tokR : AddrInput) (toA : Option AddrInput) (obo : AddrInput) (r : Reserve)
    (hsup : s.chainSupported = true) :
    (getWithdrawTransaction s acct { token := tokW, amount := .inf, toAddr := toA }
      = .ok { data := .withdrawCall tokW.val maxInt256 (orCaller toA acct.address),
              toAddr := s.poolAddr, value := 0, gasLimit := some DEFAULT_GAS_LIMIT })
    ∧ (getRepayTransaction s acct { token := tokR, amount := .inf, onBehalfOf := none }
      = .ok { data := .repayCall tokR.val maxInt256 2 acct.address,
              toAddr := s.poolAddr, value := 0, gasLimit := some DEFAULT_GAS_LIMIT })
    ∧ (s.reserves.find? (fun q => q.underlyingAsset == tokR.val) = some r →
      getRepayTransaction s acct { token := tokR, amount := .inf, onBehalfOf := some obo }
      = .ok { data := .repayCall tokR.val (getUserDebtByToken s r obo.val + 100) 2 obo.val,
              toAddr := s.poolAddr, value := 0, gasLimit := some DEFAULT_GAS_LIMIT }) := by
  refine ⟨?_, ?_, fun hfind => ?_⟩ <;>
    simp [getWithdrawTransaction, getRepayTransaction, getAddressMap,
      getTokenReserveData, hsup, orCaller, *]

/-- C5 witness: the amended statement applied to the debt fixture; the
on-behalf full repay encodes the projected debt 500 plus 100. -/
theorem c5_sentinel_translation_witness :
    getWithdrawTransaction c5State dummyAcct { token := .valid 7, amount := .inf, toAddr := none }
      = .ok { data := .withdrawCall 7 maxInt256 21, toAddr := 99, value := 0,
              gasLimit := some DEFAULT_GAS_LIMIT } ∧
    getRepayTransaction c5State dummyAcct { token := .valid 7, amount := .inf, onBehalfOf := none }
      = .ok { data := .repayCall 7 maxInt256 2 21, toAddr := 99, value := 0,
              gasLimit := some DEFAULT_GAS_LIMIT } ∧
    getRepayTransaction c5State dummyAcct { token := .valid 7, amount := .inf, onBehalfOf := some (.valid 42) }
      = .ok { data := .repayCall 7 600 2 42, toAddr := 99, value := 0,
              gasLimit := some DEFAULT_GAS_LIMIT } := by
  have h := c5_sentinel_translation c5State dummyAcct (.valid 7) (.valid 7) none
    (.valid 42) c5Reserve rfl
  refine ⟨h.1, h.2.1, ?_⟩
  have h3 := h.2.2 rfl
  rw [h3]
  rfl

/-- A chain state whose account data carries the maximum unsigned 256-bit
integer as the raw health factor. -/
def c6State : ChainState :=
  { chainSupported := true
    poolAddr := 99
    balanceOf := fun _ => 0
    reserves := []
    scaledTotalSupply := fun _ => 0
    scaledBalanceOf := fun _ _ => 0
    rawAccountData := fun _ =>
      { totalCollateralBase := 0
        totalDebtBase := 0
        availableBorrowsBase := 0
        currentLiquidationThreshold := 0
        ltv := 0
        healthFactor := specMaxUint256 }
    assetPrice := fun _ => 1 }

/-- A chain state whose six raw account words are all zero. -/
def c6ZeroState : ChainState :=
  { c6State with
    rawAccountData := fun _ =>
      { totalCollateralBase := 0
        totalDebtBase := 0
        availableBorrowsBase := 0
        currentLiquidationThreshold := 0
        ltv := 0
        healthFactor := 0 } }

/-- C6 counterexample: a raw health factor equal to the maximum unsigned
256-bit integer is returned as a finite number, not as the infinity
sentinel: the sentinel condition is equality with MaxInt256, not with the
maximum unsigned integer. -/
theorem c6_sentinel_counterexample :
    getAccountData c6State 21 none
      = .ok { totalCollateralBase := 0, totalDebtBase := 0, availableBorrowsBase := 0,
              currentLiquidationThreshold := 0, ltv := 0,
              healthFactor := .fin specMaxUint256 } ∧
    HealthFactor.fin specMaxUint256 ≠ .inf := by
  constructor
  · rfl
  · simp

/-- C6 amended: getAccountData maps the raw health factor to the infinity
sentinel exactly when it equals the ethers MaxInt256 constant (2 to the 255
minus 1), and to the plain numeric value otherwise; an account whose six raw
words are all zero yields the all-zero account data with health factor 0. -/
theorem c6_health_factor_sentinel (s : ChainState) (caller : Nat)
    (hsup : s.chainSupported = true) :
    ∃ ad, getAccountData s caller none = .ok ad ∧
      (ad.healthFactor = .inf ↔ (s.rawAccountData caller).healthFactor = maxInt256) ∧
      (s.rawAccountData caller
          = { totalCollateralBase := 0, totalDebtBase := 0, availableBorrowsBase := 0,
              currentLiquidationThreshold := 0, ltv := 0, healthFactor := 0 } →
        ad = { totalCollateralBase := 0, totalDebtBase := 0, availableBorrowsBase := 0,
               currentLiquidationThreshold := 0, ltv := 0, healthFactor := .fin 0 }) := by
  refine ⟨{ totalCollateralBase := (s.rawAccountData caller).totalCollateralBase,
            totalDebtBase := (s.rawAccountData caller).totalDebtBase,
            availableBorrowsBase := (s.rawAccountData caller).availableBorrowsBase,
            currentLiquidationThreshold := (s.rawAccountData caller).currentLiquidationThreshold,
            ltv := (s.rawAccountData caller).ltv,
            healthFactor := if isBigIntInfinity (s.rawAccountData caller).healthFactor
              then .inf else .fin (s.rawAccountData caller).healthFactor }, ?_, ?_, ?_⟩
  · simp [getAccountData, badOptionalAddr, getAddressMap, hsup]
  · by_cases hinf : (s.rawAccountData caller).healthFactor = maxInt256
    · simp [isBigIntInfinity, hinf]
    · simp [isBigIntInfinity, hinf]
  · intro hzero
    have h0 : isBigIntInfinity (0 : Nat) = false := by decide
    simp [hzero, h0]

/-- C6 witness: the amended statement applied to the all-zero fixture. -/
theorem c6_health_factor_sentinel_witness :
    ∃ ad, getAccountData c6ZeroState 21 none = .ok ad ∧
      (ad.healthFactor = .inf ↔ (c6ZeroState.rawAccountData 21).healthFactor = maxInt256) ∧
      (c6ZeroState.rawAccountData 21
          = { totalCollateralBase := 0, totalDebtBase := 0, availableBorrowsBase := 0,
              currentLiquidationThreshold := 0, ltv := 0, healthFactor := 0 } →
        ad = { totalCollateralBase := 0, totalDebtBase := 0, availableBorrowsBase := 0,
               currentLiquidationThreshold := 0, ltv := 0, healthFactor := .fin 0 }) :=
  c6_health_factor_sentinel c6ZeroState 21 rfl

/-- C7: for valid inputs with a sufficient balance on an unconstrained
reserve, supply on a signing, non-batched account submits exactly one
approval of the resolved pool address for exactly the requested amount,
followed by exactly one supply call encoding
(token, amount, onBehalfOf or caller, 0); the returned fee is the sum of
the two submitted fees and the returned hash is the hash of the supply
call. -/
theorem c7_supply_shape (acct : Account) (s : ChainState) (o : SupplyOptions)
    (r : Reserve) (t n : Nat)
    (hsig : acct.isSigner = true) (hbatch : acct.isBatched = false)
    (htok : o.token = .valid t)
    (hobo : badOptionalAddr o.onBehalfOf = false)
    (hamt : o.amount = .num n) (hn : n ≠ 0)
    (hsup : s.chainSupported = true)
    (hfind : s.reserves.find? (fun q => q.underlyingAsset == t) = some r)
    (hp : r.isPaused = false) (hf : r.isFrozen = false) (ha : r.isActive = true)
    (hbal : ¬ s.balanceOf t < n)
    (hcap : rayMul (s.scaledTotalSupply r.aTokenAddress + r.accruedToTreasury)
        (r.liquidityIndex + n) ≤ r.supplyCap * 10 ^ r.decimals) :
    supply acct s o =
      (.ok { fee := acct.feeOf
                { data := .supplyCall t (.num n) (orCaller o.onBehalfOf acct.address) 0,
                  toAddr := s.poolAddr, value := 0, gasLimit := some DEFAULT_GAS_LIMIT }
              + acct.feeOf
                { data := .approve s.poolAddr (.num n), toAddr := t, value := 0,
                  gasLimit := none },
             hash := acct.hashOf
                { data := .supplyCall t (.num n) (orCaller o.onBehalfOf acct.address) 0,
                  toAddr := s.poolAddr, value := 0, gasLimit := some DEFAULT_GAS_LIMIT } },
       [ { data := .approve s.poolAddr (.num n), toAddr := t, value := 0, gasLimit := none },
         { data := .supplyCall t (.num n) (orCaller o.onBehalfOf acct.address) 0,
           toAddr := s.poolAddr, value := 0, gasLimit := some DEFAULT_GAS_LIMIT } ]) := by
  simp [supply, supplyInputError, hsig, htok, hobo, hamt, isAddress, Amount.le0, hn,
    validateSupply, getTokenReserveData, getAddressMap, hsup, hfind, AddrInput.val,
    Amount.balanceLt, Amount.toBigInt, hp, hf, ha, hbal, Nat.not_lt.mpr hcap,
    getApproveTransaction, getSupplyTransaction, hbatch]

/-- A chain state with a large balance and an unconstrained reserve for
token 7. -/
def c7State : ChainState :=
  { chainSupported := true
    poolAddr := 99
    balanceOf := fun _ => 20000000
    reserves := [c5Reserve]
    scaledTotalSupply := fun _ => 0
    scaledBalanceOf := fun _ _ => 0
    rawAccountData := fun _ => healthyRaw
    assetPrice := fun _ => 1 }

/-- C7 witness: the theorem applied to the unconstrained fixture at amount
10000000. -/
theorem c7_supply_shape_witness :
    supply dummyAcct c7State { token := .valid 7, amount := .num 10000000, onBehalfOf := none } =
      (.ok { fee := dummyAcct.feeOf
                { data := .supplyCall 7 (.num 10000000) (orCaller none dummyAcct.address) 0,
                  toAddr := c7State.poolAddr, value := 0, gasLimit := some DEFAULT_GAS_LIMIT }
              + dummyAcct.feeOf
                { data := .approve c7State.poolAddr (.num 10000000), toAddr := 7, value := 0,
                  gasLimit := none },
             hash := dummyAcct.hashOf
                { data := .supplyCall 7 (.num 10000000) (orCaller none dummyAcct.address) 0,
                  toAddr := c7State.poolAddr, value := 0, gasLimit := some DEFAULT_GAS_LIMIT } },
       [ { data := .approve c7State.poolAddr (.num 10000000), toAddr := 7, value := 0,
           gasLimit := none },
         { data := .supplyCall 7 (.num 10000000) (orCaller none dummyAcct.address) 0,
           toAddr := c7State.poolAddr, value := 0, gasLimit := some DEFAULT_GAS_LIMIT } ]) :=
  c7_supply_shape dummyAcct c7State
    { token := .valid 7, amount := .num 10000000, onBehalfOf := none } c5Reserve 7 10000000
    rfl rfl rfl rfl rfl (by decide) rfl rfl rfl rfl rfl (by decide) (by decide)

/-- A paused reserve for token 7. -/
def pausedReserve : Reserve :=
  { c5Reserve with isPaused := true }

/-- A chain state whose only reserve is paused. -/
def c9State : ChainState :=
  { c4State with reserves := [pausedReserve] }

/-- C9 counterexample: withdraw invoked on a read-only account does not
raise the account-type error; it runs the validation engine and surfaces
the paused-reserve error read from the chain. -/
theorem c9_readonly_counterexample :
    withdraw roAcct c9State { token := .valid 7, amount := .num 5, toAddr := none }
      = (.error .reservePaused, []) ∧
    Err.reservePaused ≠ Err.requireNonReadOnly := by
  constructor
  · rfl
  · simp

/-- C9 amended: supply, repay and setUseReserveAsCollateral reject a
read-only account with the account-type error before validation, for every
input; withdraw and borrow perform no account capability check, and their
input guards can never produce that error. -/
theorem c9_readonly_guard (acct : Account) (s : ChainState) (oS : SupplyOptions)
    (oR : RepayOptions) (oW : WithdrawOptions) (oB : BorrowOptions)
    (token : AddrInput) (b : Bool)
    (hro : acct.isSigner = false) :
    supply acct s oS = (.error .requireNonReadOnly, []) ∧
    repay acct s oR = (.error .requireNonReadOnly, []) ∧
    setUseReserveAsCollateral acct s token b = (.error .requireNonReadOnly, []) ∧
    withdrawInputError oW ≠ some .requireNonReadOnly ∧
    borrowInputError oB ≠ some .requireNonReadOnly := by
  refine ⟨?_, ?_, ?_, ?_, ?_⟩
  · simp [supply, supplyInputError, hro]
  · simp [repay, repayInputError, hro]
  · simp [setUseReserveAsCollateral, hro]
  · intro h
    unfold withdrawInputError at h
    split at h <;> simp_all <;> split at h <;> simp_all <;> split at h <;> simp_all
  · intro h
    unfold borrowInputError at h
    split at h <;> simp_all <;> split at h <;> simp_all <;> split at h <;> simp_all

/-- C9 witness: the amended statement applied to the read-only account and
the paused fixture. -/
theorem c9_readonly_guard_witness :
    supply roAcct c9State { token := .valid 7, amount := .num 5, onBehalfOf := none }
      = (.error .requireNonReadOnly, []) ∧
    repay roAcct c9State { token := .valid 7, amount := .num 5, onBehalfOf := none }
      = (.error .requireNonReadOnly, []) ∧
    setUseReserveAsCollateral roAcct c9State (.valid 7) true
      = (.error .requireNonReadOnly, []) ∧
    withdrawInputError { token := .valid 7, amount := .num 5, toAddr := none }
      ≠ some .requireNonReadOnly ∧
    borrowInputError { token := .valid 7, amount := .num 5, onBehalfOf := none }
      ≠ some .requireNonReadOnly :=
  c9_readonly_guard roAcct c9State
    { token := .valid 7, amount := .num 5, onBehalfOf := none }
    { token := .valid 7, amount := .num 5, onBehalfOf := none }
    { token := .valid 7, amount := .num 5, toAddr := none }
    { token := .valid 7, amount := .num 5, onBehalfOf := none }
    (.valid 7) true rfl

end Aave
